import Mathlib

/-!
Verification development for `pglogical_init_replica.c`: the initial node
synchronization protocol of a logical-replication subscriber.  The C source is
shallowly embedded: query builders become string functions, the bootstrap state
machine becomes a trace-producing function over an environment that supplies
the outcomes of remote calls, and the copy engine becomes explicit recursion
over the chunk stream.
-/

/-- Node status enumeration.  Modelled from the spec: `NodeStatus` is "an
ordered enumeration forming the state machine's phases"
`INIT → SYNC_SCHEMA → SLOTS → CATCHUP → CONNECT_BACK → READY`; the constants
`NODE_STATUS_*` live in the external header `pglogical_node.h`. -/
inductive NodeStatus where
  | init
  | sync_schema
  | slots
  | catchup
  | connect_back
  | ready
  deriving DecidableEq

/-- Position of a status in the spec's phase order. -/
def statusRank : NodeStatus → Nat
  | NodeStatus.init => 0
  | NodeStatus.sync_schema => 1
  | NodeStatus.slots => 2
  | NodeStatus.catchup => 3
  | NodeStatus.connect_back => 4
  | NodeStatus.ready => 5

/-- Node roles.  Modelled from the spec: `role ∈ \x7borigin, subscriber\x7d`;
the constant `NODE_ROLE_SUBSCRIBER` lives in the external header. -/
inductive NodeRole where
  | origin
  | subscriber
  deriving DecidableEq

/-- A node record, as read by this core (`PGLogicalNode`). -/
structure PGLogicalNode where
  id : Nat
  name : String
  dsn : String
  role : NodeRole
  status : NodeStatus

/-- The bootstrap context (`PGLogicalConnection`): origin node, target node and
the replication sets to copy (each set contributes its name). -/
structure PGLogicalConnection where
  origin : PGLogicalNode
  target : PGLogicalNode
  replication_sets : List String

/-- Double every occurrence of the character `c` in a character list. -/
def doubleChar (c : Char) : List Char → List Char
  | [] => []
  | x :: xs =>
    if x = c then c :: c :: doubleChar c xs else x :: doubleChar c xs

/-- Double every occurrence of either of the characters `c` or `d`. -/
def doubleChars (c d : Char) : List Char → List Char
  | [] => []
  | x :: xs =>
    if x = c ∨ x = d then x :: x :: doubleChars c d xs
    else x :: doubleChars c d xs

/-- Model of libpq's `PQescapeIdentifier`: wrap in double quotes, doubling any
embedded double quote. -/
def escapeIdentifier (s : String) : String :=
  "\"" ++ String.mk (doubleChar (Char.ofNat 34) s.data) ++ "\""

/-- Model of libpq's `PQescapeLiteral`: wrap in single quotes, doubling embedded
single quotes and backslashes; a string containing a backslash gets the `E`
prefix. -/
def escapeLiteral (s : String) : String :=
  let body := String.mk (doubleChars (Char.ofNat 39) (Char.ofNat 92) s.data)
  if s.data.contains (Char.ofNat 92) then "E\x27" ++ body ++ "\x27"
  else "\x27" ++ body ++ "\x27"

/-- Extension name.  Modelled from the spec: the catalog view is
`"<extension_schema>.tables"`; the constant `EXTENSION_NAME` lives in the
external header `pglogical.h`. -/
def EXTENSION_NAME : String := "pglogical"

/-- The replication-set array literal built by `get_copy_tables` (lines
338-346): a `\x7b`, then each set name appended with no separator, then `\x7d`. -/
def build_repset_array (replication_sets : List String) : String :=
  "\x7b" ++ String.join replication_sets ++ "\x7d"

/-- The array literal the spec describes: each replication-set name a distinct
array element, i.e. the names joined by commas inside braces.  This is the
spec-side definition used only to compare with `build_repset_array`. -/
def spec_repset_array (replication_sets : List String) : String :=
  "\x7b" ++ String.intercalate "," replication_sets ++ "\x7d"

/-- The table-selection query built by `get_copy_tables` (lines 349-353):
the array literal goes through `PQescapeLiteral`, the schema name is the
compile-time extension name. -/
def build_copy_tables_query (replication_sets : List String) : String :=
  "SELECT nspname, relname FROM " ++ EXTENSION_NAME ++
    ".tables WHERE set_name = ANY(" ++
    escapeLiteral (build_repset_array replication_sets) ++ ")"

/-- The `COPY ... TO stdout` query built by `copy_table_data` (lines 259-264):
schema and relation names go through `PQescapeIdentifier`. -/
def build_copy_to_query (schemaname relname : String) : String :=
  "COPY " ++ escapeIdentifier schemaname ++ "." ++ escapeIdentifier relname ++
    " TO stdout"

/-- The `COPY ... FROM stdin` query built by `copy_table_data` (lines 277-282):
schema and relation names go through `PQescapeIdentifier` (note the C escapes
them against the origin connection although the query runs on the target). -/
def build_copy_from_query (schemaname relname : String) : String :=
  "COPY " ++ escapeIdentifier schemaname ++ "." ++ escapeIdentifier relname ++
    " FROM stdin"

/-- The slot-creation command built by `ensure_replication_slot_snapshot`
(lines 443-444): the slot name is interpolated raw between hand-written double
quotes, not through `PQescapeIdentifier`. -/
def build_create_slot_query (slot_name : String) : String :=
  "CREATE_REPLICATION_SLOT \"" ++ slot_name ++ "\" LOGICAL pg_logical_output"

/-- The origin-side transaction setup issued by `start_copy_origin_tx` (lines
206-217): the snapshot token is interpolated raw between hand-written single
quotes, not through `PQescapeLiteral`. -/
def build_origin_tx_setup (snapshot : String) : String :=
  "BEGIN TRANSACTION ISOLATION LEVEL REPEATABLE READ, READ ONLY;\n" ++
  "SET TRANSACTION SNAPSHOT \x27" ++ snapshot ++ "\x27;\n" ++
  "SET DATESTYLE = ISO;\n" ++
  "SET INTERVALSTYLE = POSTGRES;\n" ++
  "SET extra_float_digits TO 3;\n" ++
  "SET statement_timeout = 0;\n" ++
  "SET lock_timeout = 0;\n"

/-- Slot name computation.  Modelled from the spec: `gen_slot_name` (external
to this file) computes the slot name "from local database + origin + target
identity". -/
def gen_slot_name (dbname originname targetname : String) : String :=
  "pgl_" ++ dbname ++ "_" ++ originname ++ "_" ++ targetname

/-- Environment for one table's streamed bulk copy in `copy_table_data`:
the chunk sequence `PQgetCopyData` delivers, the code it returns once the
chunks are exhausted (`-1` is normal end-of-data, anything else is a read
failure), how many chunks `PQputCopyData` accepts before failing, the two
connections' error texts, and the outcomes of the copy-start and copy-end
protocol steps. -/
structure CopyEnv where
  chunks : List String
  endCode : Int
  targetAccepts : Nat
  originErr : String
  targetErr : String
  copyOutOk : Bool
  copyInOk : Bool
  copyEndOk : Bool

/-- The chunk-forwarding loop of `copy_table_data` (lines 294-323): pull a
chunk from the origin, push it to the target, fail on either side's error;
after the last chunk check the origin's end code, then send copy-end to the
target.  Returns `none` on success, `some message` on the error raised. -/
def copy_chunks (env : CopyEnv) : List String → Nat → Option String
  | [], _ =>
    if env.endCode ≠ -1 then
      some ("reading from origin table failed: source connection returned " ++
            toString env.endCode ++ ": " ++ env.originErr)
    else if env.copyEndOk then none
    else
      some ("sending copy-completion to destination connection failed: " ++
            "destination connection reported: " ++ env.targetErr)
  | _ :: rest, Nat.succ k => copy_chunks env rest k
  | _ :: _, 0 =>
    some ("writing to target table failed: destination connection reported: " ++
          env.targetErr)

/-- `copy_table_data` (lines 249-326): build and start the `COPY TO` and
`COPY FROM` streams (failures there embed the query text, which contains the
escaped table name, plus the origin connection's error text — the C reads
`PQerrorMessage(origin_conn)` in both branches), then run the chunk loop. -/
def copy_table_data (env : CopyEnv) (schemaname relname : String) :
    Option String :=
  if env.copyOutOk = false then
    some ("table copy failed: Query \x27" ++
          build_copy_to_query schemaname relname ++ "\x27: " ++ env.originErr)
  else if env.copyInOk = false then
    some ("table copy failed: Query \x27" ++
          build_copy_from_query schemaname relname ++ "\x27: " ++ env.originErr)
  else copy_chunks env env.chunks env.targetAccepts

/-- Environment for `copy_node_data`: outcomes of the two `BEGIN`s, the table
list the selection query returns (`none` means the query failed), the per-table
copy environment, and the outcomes and error texts of the final `ROLLBACK` on
the origin and `COMMIT` on the target. -/
structure NodeDataEnv where
  beginOriginOk : Bool
  beginOriginErr : String
  beginTargetOk : Bool
  beginTargetErr : String
  tableList : Option (List (String × String))
  copyEnvOf : String → String → CopyEnv
  rollbackOk : Bool
  rollbackErr : String
  commitOk : Bool
  commitErr : String

/-- The per-table loop of `copy_node_data` (lines 402-410): copy each table in
turn, stopping at the first failure. -/
def copy_tables_loop (env : NodeDataEnv) : List (String × String) → Option String
  | [] => none
  | (s, r) :: rest =>
    match copy_table_data (env.copyEnvOf s r) s r with
    | some e => some e
    | none => copy_tables_loop env rest

/-- `copy_node_data` (lines 381-427): begin the origin transaction, get the
table list, begin the target transaction, copy every table, then finalize —
a failed `ROLLBACK` on the origin is only a warning (`elog(WARNING)`, line
415) while a failed `COMMIT` on the target is fatal (`elog(ERROR)`, line 423).
Returns the warnings emitted and the fatal error, if any. -/
def copy_node_data (env : NodeDataEnv) : List String × Option String :=
  if env.beginOriginOk = false then
    ([], some ("BEGIN on origin node failed: " ++ env.beginOriginErr))
  else
    match env.tableList with
    | none => ([], some "could not get table list")
    | some tables =>
      if env.beginTargetOk = false then
        ([], some ("BEGIN on target node failed: " ++ env.beginTargetErr))
      else
        match copy_tables_loop env tables with
        | some e => ([], some e)
        | none =>
          let warns :=
            if env.rollbackOk then []
            else ["ROLLBACK on origin node failed: " ++ env.rollbackErr]
          if env.commitOk then (warns, none)
          else (warns, some ("COMMIT on target node failed: " ++ env.commitErr))

/-- Observable side effects of one bootstrap run, in order of occurrence. -/
inductive Event where
  | txBegin
  | createSlot (slotName : String) (startLsn : Nat) (snapshotId : String)
  | createOrigin (slotName : String)
  | advanceOrigin (lsn : Nat)
  | txCommit
  | setStatus (nodeId : Nat) (st : NodeStatus)
  | runDumpCommand (snapshot : String)
  | runRestoreCommand (sect : String)
  | copyData (snapshot : String)
  | makeOtherSlots
  | setRemoteStatus (nodeName : String) (st : NodeStatus)
  deriving DecidableEq

/-- A trace of side effects. -/
abbrev Trace := List Event

/-- The fatal errors `pglogical_init_replica` and its helpers can raise. -/
inductive InitError where
  | nonrecoverable
  | slotCreationFailed
  | toolNotFound
  | toolVersionMismatch
  | toolRunFailed
  | copyFailed
  | roleUnsupported
  deriving DecidableEq

/-- Environment for one bootstrap run: the local database name, the slot
creation reply (`none` means the replication command failed; otherwise the
parsed start LSN and snapshot token), the server's `PG_VERSION_NUM`, the
located dump and restore tools' reported `(pre_dot, post_dot)` versions
(`none` means the tool was not found), the outcomes of running the dump and
restore commands, and the copy engine's environment. -/
structure Env where
  databaseName : String
  slotReply : Option (Nat × String)
  pgVersionNum : Nat
  pgDump : Option (Nat × Nat)
  pgRestore : Option (Nat × Nat)
  dumpRunOk : Bool
  restoreRunOk : String → Bool
  nodeData : NodeDataEnv

/-- `dump_structure` (lines 88-116): locate `pg_dump` and obtain its version
`(pre_dot * 100 + post_dot) * 100` (line 83); if `version / 100` differs from
`PG_VERSION_NUM / 100` raise an error before running anything; otherwise run
the dump command, whose nonzero exit is fatal. -/
def dump_structure (env : Env) (snapshot : String) :
    Trace × Option InitError :=
  match env.pgDump with
  | none => ([], some InitError.toolNotFound)
  | some (pre, post) =>
    if (pre * 100 + post) * 100 / 100 ≠ env.pgVersionNum / 100 then
      ([], some InitError.toolVersionMismatch)
    else if env.dumpRunOk then ([Event.runDumpCommand snapshot], none)
    else ([Event.runDumpCommand snapshot], some InitError.toolRunFailed)

/-- `restore_structure` (lines 118-147): the same locate/version-check/run
sequence for `pg_restore`, restricted to one dump section. -/
def restore_structure (env : Env) (sect : String) :
    Trace × Option InitError :=
  match env.pgRestore with
  | none => ([], some InitError.toolNotFound)
  | some (pre, post) =>
    if (pre * 100 + post) * 100 / 100 ≠ env.pgVersionNum / 100 then
      ([], some InitError.toolVersionMismatch)
    else if env.restoreRunOk sect then
      ([Event.runRestoreCommand sect], none)
    else ([Event.runRestoreCommand sect], some InitError.toolRunFailed)

/-- The INIT phase together with the SYNC_SCHEMA work (lines 514-557): inside
one local transaction compute the slot name, create the slot and parse its
reply, create and advance the replication origin to the reply's start LSN,
commit; persist `SYNC_SCHEMA`; then dump the structure at the snapshot,
restore the pre-data section, copy the data, restore the post-data section and
persist `SLOTS`.  Entered only when the status is `INIT`. -/
def initSyncPhase (conn : PGLogicalConnection) (env : Env) (st : NodeStatus) :
    Trace × Option InitError × NodeStatus :=
  if st = NodeStatus.init then
    match env.slotReply with
    | none => ([Event.txBegin], some InitError.slotCreationFailed, st)
    | some (lsn, snap) =>
      let slotName :=
        gen_slot_name env.databaseName conn.origin.name conn.target.name
      let evs0 := [Event.txBegin, Event.createSlot slotName lsn snap,
                   Event.createOrigin slotName, Event.advanceOrigin lsn,
                   Event.txCommit,
                   Event.setStatus conn.target.id NodeStatus.sync_schema]
      match dump_structure env snap with
      | (evsD, some e) => (evs0 ++ evsD, some e, NodeStatus.sync_schema)
      | (evsD, none) =>
        match restore_structure env "pre-data" with
        | (evsP, some e) =>
          (evs0 ++ evsD ++ evsP, some e, NodeStatus.sync_schema)
        | (evsP, none) =>
          match (copy_node_data env.nodeData).2 with
          | some _ =>
            (evs0 ++ evsD ++ evsP ++ [Event.copyData snap],
             some InitError.copyFailed, NodeStatus.sync_schema)
          | none =>
            match restore_structure env "post-data" with
            | (evsQ, some e) =>
              (evs0 ++ evsD ++ evsP ++ [Event.copyData snap] ++ evsQ,
               some e, NodeStatus.sync_schema)
            | (evsQ, none) =>
              (evs0 ++ evsD ++ evsP ++ [Event.copyData snap] ++ evsQ ++
                 [Event.setStatus conn.target.id NodeStatus.slots],
               none, NodeStatus.slots)
  else ([], none, st)

/-- The SLOTS phase (lines 559-565): run the (stub) `make_other_slots` and
persist `CATCHUP`. -/
def slotsPhase (conn : PGLogicalConnection) (st : NodeStatus) :
    Trace × Option InitError × NodeStatus :=
  if st = NodeStatus.slots then
    ([Event.makeOtherSlots,
      Event.setStatus conn.target.id NodeStatus.catchup],
     none, NodeStatus.catchup)
  else ([], none, st)

/-- The CATCHUP phase (lines 567-581): any target role other than subscriber
is a fatal unsupported configuration; otherwise persist `CONNECT_BACK`. -/
def catchupPhase (conn : PGLogicalConnection) (st : NodeStatus) :
    Trace × Option InitError × NodeStatus :=
  if st = NodeStatus.catchup then
    match conn.target.role with
    | NodeRole.subscriber =>
      ([Event.setStatus conn.target.id NodeStatus.connect_back],
       none, NodeStatus.connect_back)
    | _ => ([], some InitError.roleUnsupported, st)
  else ([], none, st)

/-- The CONNECT_BACK phase (lines 583-605): validate the role again, persist
`READY` locally, then push `READY` into the origin's view of this node. -/
def connectBackPhase (conn : PGLogicalConnection) (st : NodeStatus) :
    Trace × Option InitError × NodeStatus :=
  if st = NodeStatus.connect_back then
    match conn.target.role with
    | NodeRole.subscriber =>
      ([Event.setStatus conn.target.id NodeStatus.ready,
        Event.setRemoteStatus conn.target.name NodeStatus.ready],
       none, NodeStatus.ready)
    | _ => ([], some InitError.roleUnsupported, st)
  else ([], none, st)

/-- Sequence two phase computations: a raised error (`elog(ERROR)`) aborts the
run, so the second phase only executes when the first produced none. -/
def andThen (r : Trace × Option InitError × NodeStatus)
    (f : NodeStatus → Trace × Option InitError × NodeStatus) :
    Trace × Option InitError × NodeStatus :=
  match r with
  | (evs, some e, st) => (evs, some e, st)
  | (evs, none, st) =>
    match f st with
    | (evs2, e2, st2) => (evs ++ evs2, e2, st2)

/-- `pglogical_init_replica` (lines 492-606): read the persisted status; the
recoverable entry statuses are exactly `INIT`, `SLOTS`, `CATCHUP` and
`CONNECT_BACK` (the `switch` at lines 501-512) — anything else raises the
non-recoverable fatal error; then run the phases in order, each guarded by the
current status.  Returns the trace of side effects and the error raised, if
any. -/
def pglogical_init_replica (conn : PGLogicalConnection) (env : Env) :
    Trace × Option InitError :=
  match conn.target.status with
  | NodeStatus.init | NodeStatus.slots | NodeStatus.catchup
  | NodeStatus.connect_back =>
    match
      andThen (andThen (andThen
        (initSyncPhase conn env conn.target.status)
        (slotsPhase conn)) (catchupPhase conn)) (connectBackPhase conn)
    with
    | (evs, e, _) => (evs, e)
  | _ => ([], some InitError.nonrecoverable)

/-- The status an event persists through `set_node_status`, if any. -/
def statusOf : Event → Option NodeStatus
  | Event.setStatus _ st => some st
  | _ => none

/-- The statuses a trace persists, in order. -/
def persistedStatuses (t : Trace) : List NodeStatus :=
  t.filterMap statusOf

/-- The LSN an event advances the replication origin to, if any. -/
def advancedLsnOf : Event → Option Nat
  | Event.advanceOrigin lsn => some lsn
  | _ => none

/-- The LSNs a trace advances the replication origin to, in order. -/
def advancedLsns (t : Trace) : List Nat :=
  t.filterMap advancedLsnOf

/-- The events the INIT phase emits up to and including persisting
`SYNC_SCHEMA`, once the slot reply `(lsn, snap)` arrived. -/
def initPrefix (conn : PGLogicalConnection) (env : Env) (lsn : Nat)
    (snap : String) : Trace :=
  [Event.txBegin,
   Event.createSlot
     (gen_slot_name env.databaseName conn.origin.name conn.target.name) lsn snap,
   Event.createOrigin
     (gen_slot_name env.databaseName conn.origin.name conn.target.name),
   Event.advanceOrigin lsn, Event.txCommit,
   Event.setStatus conn.target.id NodeStatus.sync_schema]

/-- The events a fully successful SYNC_SCHEMA phase emits after the prefix:
dump, pre-data restore, data copy, post-data restore, persist `SLOTS`. -/
def syncBlock (conn : PGLogicalConnection) (snap : String) : Trace :=
  [Event.runDumpCommand snap, Event.runRestoreCommand "pre-data",
   Event.copyData snap, Event.runRestoreCommand "post-data",
   Event.setStatus conn.target.id NodeStatus.slots]

/-- The phases following the INIT/SYNC_SCHEMA block, chained. -/
def tailPhases (conn : PGLogicalConnection) (st : NodeStatus) :
    Trace × Option InitError × NodeStatus :=
  andThen (slotsPhase conn st) fun st2 =>
    andThen (catchupPhase conn st2) (connectBackPhase conn)

/-- Example origin node used by concrete witnesses. -/
def exOrigin : PGLogicalNode :=
  { id := 1, name := "prov", dsn := "host=o", role := NodeRole.origin,
    status := NodeStatus.ready }

/-- Example target node, at the start of a bootstrap. -/
def exTarget : PGLogicalNode :=
  { id := 2, name := "subs", dsn := "host=t", role := NodeRole.subscriber,
    status := NodeStatus.init }

/-- Example per-table copy environment where everything succeeds. -/
def exCopyEnv : CopyEnv :=
  { chunks := ["r1", "r2"], endCode := -1, targetAccepts := 5,
    originErr := "", targetErr := "", copyOutOk := true, copyInOk := true,
    copyEndOk := true }

/-- Example per-table copy environment whose chunk read fails with code `-2`. -/
def exCopyEnvReadFail : CopyEnv :=
  { chunks := ["r1"], endCode := -2, targetAccepts := 5,
    originErr := "connection reset", targetErr := "", copyOutOk := true,
    copyInOk := true, copyEndOk := true }

/-- Example copy-node environment where everything succeeds. -/
def exNodeData : NodeDataEnv :=
  { beginOriginOk := true, beginOriginErr := "", beginTargetOk := true,
    beginTargetErr := "", tableList := some [("public", "accounts")],
    copyEnvOf := fun _ _ => exCopyEnv, rollbackOk := true, rollbackErr := "",
    commitOk := true, commitErr := "" }

/-- Example copy-node environment whose final `ROLLBACK` on the origin fails. -/
def exNodeDataRbFail : NodeDataEnv :=
  { exNodeData with
    tableList := some []
    rollbackOk := false
    rollbackErr := "server closed the connection" }

/-- Example copy-node environment whose final `COMMIT` on the target fails. -/
def exNodeDataCommitFail : NodeDataEnv :=
  { exNodeData with
    tableList := some []
    commitOk := false
    commitErr := "disk full" }

/-- Example bootstrap environment where everything succeeds (server version
9.4.5, both tools report 9.4). -/
def exEnv : Env :=
  { databaseName := "db", slotReply := some (42, "snap-1"),
    pgVersionNum := 90405, pgDump := some (9, 4), pgRestore := some (9, 4),
    dumpRunOk := true, restoreRunOk := fun _ => true, nodeData := exNodeData }

/-- Example environment whose located tools report the wrong major versions. -/
def exEnvBadTools : Env :=
  { exEnv with
    pgDump := some (9, 5)
    pgRestore := some (8, 4) }

/-- Example bootstrap context entered at status `INIT`. -/
def exConn : PGLogicalConnection :=
  { origin := exOrigin, target := exTarget, replication_sets := ["default"] }

/-- The trace of a structural dump is empty or the single run event. -/
theorem dump_structure_trace_shape (env : Env) (snapshot : String) :
    (dump_structure env snapshot).1 = [] ∨
    (dump_structure env snapshot).1 = [Event.runDumpCommand snapshot] := by
  unfold dump_structure
  rcases env.pgDump with _ | ⟨pre, post⟩
  · exact Or.inl rfl
  · dsimp only
    split
    · exact Or.inl rfl
    · split <;> exact Or.inr rfl

/-- The trace of a structural restore is empty or the single run event. -/
theorem restore_structure_trace_shape (env : Env) (sect : String) :
    (restore_structure env sect).1 = [] ∨
    (restore_structure env sect).1 = [Event.runRestoreCommand sect] := by
  unfold restore_structure
  rcases env.pgRestore with _ | ⟨pre, post⟩
  · exact Or.inl rfl
  · dsimp only
    split
    · exact Or.inl rfl
    · split <;> exact Or.inr rfl

/-- A successful structural dump produced exactly the run event. -/
theorem dump_structure_ok (env : Env) (snapshot : String)
    (h : (dump_structure env snapshot).2 = none) :
    dump_structure env snapshot = ([Event.runDumpCommand snapshot], none) := by
  revert h
  unfold dump_structure
  rcases env.pgDump with _ | ⟨pre, post⟩
  · intro h; exact absurd h (by simp)
  · dsimp only
    split
    · intro h; exact absurd h (by simp)
    · split
      · intro _; rfl
      · intro h; exact absurd h (by simp)

/-- A successful structural restore produced exactly the run event. -/
theorem restore_structure_ok (env : Env) (sect : String)
    (h : (restore_structure env sect).2 = none) :
    restore_structure env sect = ([Event.runRestoreCommand sect], none) := by
  revert h
  unfold restore_structure
  rcases env.pgRestore with _ | ⟨pre, post⟩
  · intro h; exact absurd h (by simp)
  · dsimp only
    split
    · intro h; exact absurd h (by simp)
    · split
      · intro _; rfl
      · intro h; exact absurd h (by simp)

/-- C1 counterexample: on a bootstrap context whose persisted target status is
`SYNC_SCHEMA`, `pglogical_init_replica` raises the non-recoverable fatal error
and performs no phase action, refuting the claim that `SYNC_SCHEMA` is treated
as a safe restart point. -/
theorem C1_counterexample :
    (pglogical_init_replica
        { exConn with target := { exTarget with status := NodeStatus.sync_schema } }
        exEnv).2 = some InitError.nonrecoverable ∧
    (pglogical_init_replica
        { exConn with target := { exTarget with status := NodeStatus.sync_schema } }
        exEnv).1 = [] := by
  exact ⟨rfl, rfl⟩

/-- C1 (amended): a bootstrap invocation entered with persisted node status
`SYNC_SCHEMA` raises the non-recoverable fatal error and executes no phase
action; the safe restart statuses are exactly `INIT`, `SLOTS`, `CATCHUP` and
`CONNECT_BACK`. -/
theorem C1_sync_schema_is_nonrecoverable (conn : PGLogicalConnection) (env : Env)
    (h : conn.target.status = NodeStatus.sync_schema) :
    pglogical_init_replica conn env = ([], some InitError.nonrecoverable) := by
  unfold pglogical_init_replica
  rw [h]

/-- Witness for the amended C1 theorem at a concrete context. -/
theorem C1_sync_schema_is_nonrecoverable_witness :
    ({ exConn with target := { exTarget with status := NodeStatus.sync_schema }
       : PGLogicalConnection }).target.status = NodeStatus.sync_schema ∧
    pglogical_init_replica
        { exConn with target := { exTarget with status := NodeStatus.sync_schema } }
        exEnv = ([], some InitError.nonrecoverable) :=
  ⟨rfl, C1_sync_schema_is_nonrecoverable _ exEnv rfl⟩

/-- C2: evaluating the replication-set array literal of `get_copy_tables` on
the two-set list `["default", "extra"]` yields `\x7bdefaultextra\x7d` — the set
names are concatenated with no separator, so the literal holds the single
element `defaultextra` instead of one distinct element per set name. -/
theorem C2_array_literal_concatenates_names :
    build_repset_array ["default", "extra"] = "\x7bdefaultextra\x7d" ∧
    build_repset_array ["default", "extra"] ≠ spec_repset_array ["default", "extra"] ∧
    spec_repset_array ["default", "extra"] = "\x7bdefault,extra\x7d" := by
  refine ⟨rfl, ?_, rfl⟩
  decide

/-- C5: whenever the located dump tool's reported major version differs from
the running server's major version, `dump_structure` fails with the version
mismatch error and an empty trace — the dump command is never run and no
status is persisted; the same check guards `restore_structure`. -/
theorem C5_version_mismatch_blocks_tools (env : Env) (snapshot sect : String)
    (pre post qre qost : Nat)
    (hd : env.pgDump = some (pre, post))
    (hdm : pre * 100 + post ≠ env.pgVersionNum / 100)
    (hr : env.pgRestore = some (qre, qost))
    (hrm : qre * 100 + qost ≠ env.pgVersionNum / 100) :
    dump_structure env snapshot = ([], some InitError.toolVersionMismatch) ∧
    restore_structure env sect = ([], some InitError.toolVersionMismatch) := by
  have e1 : (pre * 100 + post) * 100 / 100 = pre * 100 + post :=
    Nat.mul_div_cancel _ (by norm_num)
  have e2 : (qre * 100 + qost) * 100 / 100 = qre * 100 + qost :=
    Nat.mul_div_cancel _ (by norm_num)
  constructor
  · unfold dump_structure
    rw [hd]
    simp [e1, hdm]
  · unfold restore_structure
    rw [hr]
    simp [e2, hrm]

/-- Witness for C5: tools reporting 9.5 and 8.4 against a 9.4.5 server. -/
theorem C5_version_mismatch_blocks_tools_witness :
    exEnvBadTools.pgDump = some (9, 5) ∧
    9 * 100 + 5 ≠ exEnvBadTools.pgVersionNum / 100 ∧
    exEnvBadTools.pgRestore = some (8, 4) ∧
    8 * 100 + 4 ≠ exEnvBadTools.pgVersionNum / 100 ∧
    (dump_structure exEnvBadTools "snap-1" =
        ([], some InitError.toolVersionMismatch) ∧
     restore_structure exEnvBadTools "pre-data" =
        ([], some InitError.toolVersionMismatch)) :=
  ⟨rfl, by decide, rfl, by decide,
   C5_version_mismatch_blocks_tools exEnvBadTools "snap-1" "pre-data"
     9 5 8 4 rfl (by decide) rfl (by decide)⟩

/-- C9 counterexample: for the slot name `a"b` the slot-creation command built
by `ensure_replication_slot_snapshot` differs from the one the identifier
escaping primitive would produce — the name is interpolated raw between
hand-written quotes, so the claim that every runtime identifier goes through
an escaping primitive is false. -/
theorem C9_counterexample :
    build_create_slot_query "a\"b" ≠
      "CREATE_REPLICATION_SLOT " ++ escapeIdentifier "a\"b" ++
        " LOGICAL pg_logical_output" := by
  decide

/-- C9 (amended): the `COPY` statements of `copy_table_data` route the schema
and table names through the identifier-escaping primitive and the
table-selection query of `get_copy_tables` routes its array literal through
the literal-escaping primitive, but the slot-creation command interpolates
the slot name raw between hand-written double quotes and the origin
transaction setup interpolates the snapshot token raw between hand-written
single quotes. -/
theorem C9_escaping_partial :
    (∀ s r, build_copy_to_query s r =
      "COPY " ++ escapeIdentifier s ++ "." ++ escapeIdentifier r ++
        " TO stdout") ∧
    (∀ s r, build_copy_from_query s r =
      "COPY " ++ escapeIdentifier s ++ "." ++ escapeIdentifier r ++
        " FROM stdin") ∧
    (∀ sets, build_copy_tables_query sets =
      "SELECT nspname, relname FROM " ++ EXTENSION_NAME ++
        ".tables WHERE set_name = ANY(" ++
        escapeLiteral (build_repset_array sets) ++ ")") ∧
    (∀ n, build_create_slot_query n =
      "CREATE_REPLICATION_SLOT \"" ++ n ++ "\" LOGICAL pg_logical_output") ∧
    (∀ snap, build_origin_tx_setup snap =
      "BEGIN TRANSACTION ISOLATION LEVEL REPEATABLE READ, READ ONLY;\n" ++
      "SET TRANSACTION SNAPSHOT \x27" ++ snap ++ "\x27;\n" ++
      "SET DATESTYLE = ISO;\n" ++
      "SET INTERVALSTYLE = POSTGRES;\n" ++
      "SET extra_float_digits TO 3;\n" ++
      "SET statement_timeout = 0;\n" ++
      "SET lock_timeout = 0;\n") :=
  ⟨fun _ _ => rfl, fun _ _ => rfl, fun _ => rfl, fun _ => rfl, fun _ => rfl⟩

/-- C10: invoking `pglogical_init_replica` on a node whose persisted status is
already `READY` raises the non-recoverable fatal error with an empty trace —
re-running a finished bootstrap is rejected, not a no-op. -/
theorem C10_ready_rejected (conn : PGLogicalConnection) (env : Env)
    (h : conn.target.status = NodeStatus.ready) :
    pglogical_init_replica conn env = ([], some InitError.nonrecoverable) := by
  unfold pglogical_init_replica
  rw [h]

/-- Witness for C10 at a concrete context whose target is `READY`. -/
theorem C10_ready_rejected_witness :
    ({ exConn with target := { exTarget with status := NodeStatus.ready }
       : PGLogicalConnection }).target.status = NodeStatus.ready ∧
    pglogical_init_replica
        { exConn with target := { exTarget with status := NodeStatus.ready } }
        exEnv = ([], some InitError.nonrecoverable) :=
  ⟨rfl, C10_ready_rejected _ exEnv rfl⟩

/-- A chunk the target refuses produces the write-failure error. -/
theorem copy_chunks_write_fail (env : CopyEnv) (chunks : List String) :
    ∀ k : Nat, k < chunks.length →
      copy_chunks env chunks k =
        some ("writing to target table failed: destination connection reported: " ++
              env.targetErr) := by
  induction chunks with
  | nil => intro k h; simp at h
  | cons c rest ih =>
    intro k h
    cases k with
    | zero => rfl
    | succ k => exact ih k (by simpa using h)

/-- An origin end code other than `-1` produces the read-failure error. -/
theorem copy_chunks_read_fail (env : CopyEnv) (chunks : List String)
    (hend : env.endCode ≠ -1) :
    ∀ k : Nat, chunks.length ≤ k →
      copy_chunks env chunks k =
        some ("reading from origin table failed: source connection returned " ++
              toString env.endCode ++ ": " ++ env.originErr) := by
  induction chunks with
  | nil => intro k _; simp [copy_chunks, hend]
  | cons c rest ih =>
    intro k h
    cases k with
    | zero => simp at h
    | succ k => exact ih k (by simpa using h)

/-- C4 counterexample: a chunk-level read failure on table `public.accounts`
produces an error message that carries the transport error but is identical to
the one produced for table `public.orders` — chunk-level errors cannot name
the failing table, refuting the claim. -/
theorem C4_counterexample :
    copy_table_data exCopyEnvReadFail "public" "accounts" =
      some ("reading from origin table failed: source connection returned " ++
            "-2: connection reset") ∧
    copy_table_data exCopyEnvReadFail "public" "accounts" =
      copy_table_data exCopyEnvReadFail "public" "orders" :=
  ⟨rfl, rfl⟩

/-- C4 (amended): once both copy streams have started, a chunk-level failure
on the target (write) side or the origin (read) side aborts the copy with an
error whose message carries the underlying transport error text of the failing
side, but not the table name — the chunk-level error messages are independent
of the table being copied (the table name appears only in the copy-start
errors). -/
theorem C4_chunk_error_contents (env : CopyEnv) (s r s2 r2 : String)
    (hOut : env.copyOutOk = true) (hIn : env.copyInOk = true) :
    (env.targetAccepts < env.chunks.length →
      copy_table_data env s r =
        some ("writing to target table failed: destination connection reported: " ++
              env.targetErr)) ∧
    (env.chunks.length ≤ env.targetAccepts → env.endCode ≠ -1 →
      copy_table_data env s r =
        some ("reading from origin table failed: source connection returned " ++
              toString env.endCode ++ ": " ++ env.originErr)) ∧
    copy_table_data env s r = copy_table_data env s2 r2 := by
  have base : ∀ a b : String,
      copy_table_data env a b = copy_chunks env env.chunks env.targetAccepts := by
    intro a b
    unfold copy_table_data
    rw [hOut]
    simp [hIn]
  refine ⟨?_, ?_, ?_⟩
  · intro h
    rw [base]
    exact copy_chunks_write_fail env env.chunks env.targetAccepts h
  · intro h1 h2
    rw [base]
    exact copy_chunks_read_fail env env.chunks h2 env.targetAccepts h1
  · rw [base, base]

/-- Witness for the amended C4 theorem: a concrete read failure. -/
theorem C4_chunk_error_contents_witness :
    exCopyEnvReadFail.copyOutOk = true ∧
    exCopyEnvReadFail.copyInOk = true ∧
    ((exCopyEnvReadFail.targetAccepts < exCopyEnvReadFail.chunks.length →
      copy_table_data exCopyEnvReadFail "public" "accounts" =
        some ("writing to target table failed: destination connection reported: " ++
              exCopyEnvReadFail.targetErr)) ∧
    (exCopyEnvReadFail.chunks.length ≤ exCopyEnvReadFail.targetAccepts →
      exCopyEnvReadFail.endCode ≠ -1 →
      copy_table_data exCopyEnvReadFail "public" "accounts" =
        some ("reading from origin table failed: source connection returned " ++
              toString exCopyEnvReadFail.endCode ++ ": " ++
              exCopyEnvReadFail.originErr)) ∧
    copy_table_data exCopyEnvReadFail "public" "accounts" =
      copy_table_data exCopyEnvReadFail "public" "orders") :=
  ⟨rfl, rfl,
   C4_chunk_error_contents exCopyEnvReadFail "public" "accounts" "public" "orders"
     rfl rfl⟩

/-- C6: when the copy phase reaches finalization, a failed `ROLLBACK` of the
origin-side read-only transaction only records a warning and the bootstrap
continues (no error when the commit succeeds), whereas a failed `COMMIT` of
the target-side transaction is fatal. -/
theorem C6_finalize_asymmetry (env : NodeDataEnv) (tables : List (String × String))
    (h1 : env.beginOriginOk = true)
    (h2 : env.tableList = some tables)
    (h3 : env.beginTargetOk = true)
    (h4 : copy_tables_loop env tables = none) :
    (env.rollbackOk = false → env.commitOk = true →
      copy_node_data env =
        (["ROLLBACK on origin node failed: " ++ env.rollbackErr], none)) ∧
    (env.commitOk = false →
      (copy_node_data env).2 =
        some ("COMMIT on target node failed: " ++ env.commitErr)) := by
  unfold copy_node_data
  rw [h2]
  simp only [h1, h3, h4]
  constructor
  · intro hrb hc
    simp [hrb, hc]
  · intro hc
    simp [hc]

/-- Witness for C6: a concrete environment whose `ROLLBACK` fails while the
`COMMIT` succeeds — the run ends with only the warning. -/
theorem C6_finalize_asymmetry_witness :
    exNodeDataRbFail.beginOriginOk = true ∧
    exNodeDataRbFail.tableList = some [] ∧
    exNodeDataRbFail.beginTargetOk = true ∧
    copy_tables_loop exNodeDataRbFail [] = none ∧
    ((exNodeDataRbFail.rollbackOk = false → exNodeDataRbFail.commitOk = true →
      copy_node_data exNodeDataRbFail =
        (["ROLLBACK on origin node failed: " ++ exNodeDataRbFail.rollbackErr],
         none)) ∧
    (exNodeDataRbFail.commitOk = false →
      (copy_node_data exNodeDataRbFail).2 =
        some ("COMMIT on target node failed: " ++ exNodeDataRbFail.commitErr))) :=
  ⟨rfl, rfl, rfl, rfl, C6_finalize_asymmetry exNodeDataRbFail [] rfl rfl rfl rfl⟩

/-- Sequencing after a raised error keeps the error and the trace. -/
theorem andThen_fail (evs : Trace) (e : InitError) (st : NodeStatus)
    (f : NodeStatus → Trace × Option InitError × NodeStatus) :
    andThen (evs, some e, st) f = (evs, some e, st) := rfl

/-- Sequencing after success appends the second phase's trace. -/
theorem andThen_ok (evs : Trace) (st : NodeStatus)
    (f : NodeStatus → Trace × Option InitError × NodeStatus) :
    andThen (evs, none, st) f =
      (evs ++ (f st).1, (f st).2.1, (f st).2.2) := by
  rcases hf : f st with ⟨evs2, e2, st2⟩
  simp [andThen, hf]

/-- Phase sequencing is associative. -/
theorem andThen_assoc (r : Trace × Option InitError × NodeStatus)
    (f g : NodeStatus → Trace × Option InitError × NodeStatus) :
    andThen (andThen r f) g = andThen r fun st => andThen (f st) g := by
  rcases r with ⟨evs, e, st⟩
  cases e with
  | none =>
    rcases hf : f st with ⟨evs2, e2, st2⟩
    cases e2 with
    | none =>
      rcases hg : g st2 with ⟨evs3, e3, st3⟩
      simp [andThen, hf, hg, List.append_assoc]
    | some e2 => simp [andThen, hf]
  | some e => rfl

/-- Persisted statuses distribute over trace concatenation. -/
theorem persistedStatuses_append (a b : Trace) :
    persistedStatuses (a ++ b) = persistedStatuses a ++ persistedStatuses b := by
  simp [persistedStatuses]

/-- Advanced LSNs distribute over trace concatenation. -/
theorem advancedLsns_append (a b : Trace) :
    advancedLsns (a ++ b) = advancedLsns a ++ advancedLsns b := by
  simp [advancedLsns]

/-- A structural dump persists no status. -/
theorem persistedStatuses_dump (env : Env) (snapshot : String) :
    persistedStatuses (dump_structure env snapshot).1 = [] := by
  rcases dump_structure_trace_shape env snapshot with h | h <;> rw [h] <;> rfl

/-- A structural restore persists no status. -/
theorem persistedStatuses_restore (env : Env) (sect : String) :
    persistedStatuses (restore_structure env sect).1 = [] := by
  rcases restore_structure_trace_shape env sect with h | h <;> rw [h] <;> rfl

/-- A structural dump advances no replication origin. -/
theorem advancedLsns_dump (env : Env) (snapshot : String) :
    advancedLsns (dump_structure env snapshot).1 = [] := by
  rcases dump_structure_trace_shape env snapshot with h | h <;> rw [h] <;> rfl

/-- A structural restore advances no replication origin. -/
theorem advancedLsns_restore (env : Env) (sect : String) :
    advancedLsns (restore_structure env sect).1 = [] := by
  rcases restore_structure_trace_shape env sect with h | h <;> rw [h] <;> rfl

/-- The phases after SYNC_SCHEMA never advance a replication origin. -/
theorem tail_no_advance (conn : PGLogicalConnection) (st : NodeStatus) :
    advancedLsns (tailPhases conn st).1 = [] := by
  unfold tailPhases
  cases st <;> cases hr : conn.target.role <;>
    simp [slotsPhase, catchupPhase, connectBackPhase, andThen, hr,
          advancedLsns, advancedLsnOf]

/-- Outcomes of the INIT/SYNC_SCHEMA phase once the slot reply arrived: either
some later step failed — the trace is the prefix plus events that persist no
status and advance no origin, the error is raised and the persisted status
stays `SYNC_SCHEMA` — or everything succeeded and the trace is the prefix
followed by the full sync block. -/
theorem initSync_cases (conn : PGLogicalConnection) (env : Env) (lsn : Nat)
    (snap : String) (h2 : env.slotReply = some (lsn, snap)) :
    (∃ e evs, initSyncPhase conn env NodeStatus.init =
        (initPrefix conn env lsn snap ++ evs, some e, NodeStatus.sync_schema) ∧
      persistedStatuses evs = [] ∧ advancedLsns evs = []) ∨
    initSyncPhase conn env NodeStatus.init =
      (initPrefix conn env lsn snap ++ syncBlock conn snap, none,
       NodeStatus.slots) := by
  have hpd := persistedStatuses_dump env snap
  have had := advancedLsns_dump env snap
  have hpp := persistedStatuses_restore env "pre-data"
  have hap := advancedLsns_restore env "pre-data"
  have hpq := persistedStatuses_restore env "post-data"
  have haq := advancedLsns_restore env "post-data"
  unfold initSyncPhase
  rw [h2]
  simp only [if_pos rfl]
  rcases hD : dump_structure env snap with ⟨evsD, eD⟩
  rw [hD] at hpd had
  replace hpd : persistedStatuses evsD = [] := hpd
  replace had : advancedLsns evsD = [] := had
  cases eD with
  | some e =>
    refine Or.inl ⟨e, evsD, ?_, hpd, had⟩
    simp [initPrefix]
  | none =>
    rcases hP : restore_structure env "pre-data" with ⟨evsP, eP⟩
    rw [hP] at hpp hap
    replace hpp : persistedStatuses evsP = [] := hpp
    replace hap : advancedLsns evsP = [] := hap
    cases eP with
    | some e =>
      refine Or.inl ⟨e, evsD ++ evsP, ?_, ?_, ?_⟩
      · simp [initPrefix]
      · rw [persistedStatuses_append, hpd, hpp]
        rfl
      · rw [advancedLsns_append, had, hap]
        rfl
    | none =>
      rcases hC : (copy_node_data env.nodeData).2 with _ | e
      · rcases hQ : restore_structure env "post-data" with ⟨evsQ, eQ⟩
        rw [hQ] at hpq haq
        replace hpq : persistedStatuses evsQ = [] := hpq
        replace haq : advancedLsns evsQ = [] := haq
        cases eQ with
        | some e =>
          refine Or.inl ⟨e, evsD ++ evsP ++ [Event.copyData snap] ++ evsQ,
            ?_, ?_, ?_⟩
          · simp [initPrefix]
          · simp only [persistedStatuses_append]
            rw [hpd, hpp, hpq]
            rfl
          · simp only [advancedLsns_append]
            rw [had, hap, haq]
            rfl
        | none =>
          refine Or.inr ?_
          have hd1 := dump_structure_ok env snap (by rw [hD])
          have hp1 := restore_structure_ok env "pre-data" (by rw [hP])
          have hq1 := restore_structure_ok env "post-data" (by rw [hQ])
          rw [hD] at hd1
          rw [hP] at hp1
          rw [hQ] at hq1
          have hd2 : evsD = [Event.runDumpCommand snap] := congrArg Prod.fst hd1
          have hp2 : evsP = [Event.runRestoreCommand "pre-data"] :=
            congrArg Prod.fst hp1
          have hq2 : evsQ = [Event.runRestoreCommand "post-data"] :=
            congrArg Prod.fst hq1
          subst hd2 hp2 hq2
          simp [initPrefix, syncBlock]
      · refine Or.inl ⟨InitError.copyFailed,
          evsD ++ evsP ++ [Event.copyData snap], ?_, ?_, ?_⟩
        · simp [initPrefix]
        · simp only [persistedStatuses_append]
          rw [hpd, hpp]
          rfl
        · simp only [advancedLsns_append]
          rw [had, hap]
          rfl

/-- C7: once the slot-creation reply `(lsn, snap)` arrives during the INIT
phase, the run's trace opens with slot creation, origin creation and origin
advancement to exactly `lsn`, all strictly between the local transaction's
begin and commit; and `lsn` is the only LSN any origin advancement of the
whole run ever records. -/
theorem C7_origin_advanced_to_slot_lsn (conn : PGLogicalConnection) (env : Env)
    (lsn : Nat) (snap : String)
    (h1 : conn.target.status = NodeStatus.init)
    (h2 : env.slotReply = some (lsn, snap)) :
    (pglogical_init_replica conn env).1.take 5 =
      [Event.txBegin,
       Event.createSlot
         (gen_slot_name env.databaseName conn.origin.name conn.target.name)
         lsn snap,
       Event.createOrigin
         (gen_slot_name env.databaseName conn.origin.name conn.target.name),
       Event.advanceOrigin lsn, Event.txCommit] ∧
    advancedLsns (pglogical_init_replica conn env).1 = [lsn] := by
  obtain ⟨no, nt, rs⟩ := conn
  obtain ⟨tid, tname, tdsn, trole, tst⟩ := nt
  replace h1 : tst = NodeStatus.init := h1
  subst h1
  rcases initSync_cases ⟨no, ⟨tid, tname, tdsn, trole, NodeStatus.init⟩, rs⟩
      env lsn snap h2 with ⟨e, evs, hI, hp, ha⟩ | hI
  · unfold pglogical_init_replica
    dsimp only
    rw [hI]
    simp only [andThen_fail]
    constructor
    · simp [initPrefix]
    · rw [advancedLsns_append, ha]
      simp [advancedLsns, advancedLsnOf, initPrefix]
  · unfold pglogical_init_replica
    dsimp only
    rw [hI]
    cases trole <;>
      simp [andThen, slotsPhase, catchupPhase, connectBackPhase, initPrefix,
            syncBlock, advancedLsns, advancedLsnOf]

/-- Witness for C7 at a concrete context and environment. -/
theorem C7_origin_advanced_to_slot_lsn_witness :
    exConn.target.status = NodeStatus.init ∧
    exEnv.slotReply = some (42, "snap-1") ∧
    ((pglogical_init_replica exConn exEnv).1.take 5 =
      [Event.txBegin,
       Event.createSlot
         (gen_slot_name exEnv.databaseName exConn.origin.name exConn.target.name)
         42 "snap-1",
       Event.createOrigin
         (gen_slot_name exEnv.databaseName exConn.origin.name exConn.target.name),
       Event.advanceOrigin 42, Event.txCommit] ∧
    advancedLsns (pglogical_init_replica exConn exEnv).1 = [42]) :=
  ⟨rfl, rfl, C7_origin_advanced_to_slot_lsn exConn exEnv 42 "snap-1" rfl rfl⟩

/-- C3: in every run entered at `INIT` that completes without error, the trace
contains — contiguously and in this order — the structure dump at the
snapshot, the pre-data restore, the data copy, the post-data restore, and the
persisting of status `SLOTS`; in particular the row copy falls strictly
between the pre-data and post-data restores. -/
theorem C3_sync_schema_step_order (conn : PGLogicalConnection) (env : Env)
    (lsn : Nat) (snap : String)
    (h1 : conn.target.status = NodeStatus.init)
    (h2 : env.slotReply = some (lsn, snap))
    (h3 : (pglogical_init_replica conn env).2 = none) :
    ∃ p s, (pglogical_init_replica conn env).1 =
      p ++ [Event.runDumpCommand snap, Event.runRestoreCommand "pre-data",
            Event.copyData snap, Event.runRestoreCommand "post-data",
            Event.setStatus conn.target.id NodeStatus.slots] ++ s := by
  obtain ⟨no, nt, rs⟩ := conn
  obtain ⟨tid, tname, tdsn, trole, tst⟩ := nt
  replace h1 : tst = NodeStatus.init := h1
  subst h1
  rcases initSync_cases ⟨no, ⟨tid, tname, tdsn, trole, NodeStatus.init⟩, rs⟩
      env lsn snap h2 with ⟨e, evs, hI, hp, ha⟩ | hI
  · exfalso
    unfold pglogical_init_replica at h3
    dsimp only at h3
    rw [hI] at h3
    simp [andThen_fail] at h3
  · unfold pglogical_init_replica
    dsimp only
    rw [hI]
    cases trole with
    | origin =>
      refine ⟨initPrefix ⟨no, ⟨tid, tname, tdsn, NodeRole.origin,
          NodeStatus.init⟩, rs⟩ env lsn snap,
        [Event.makeOtherSlots, Event.setStatus tid NodeStatus.catchup], ?_⟩
      simp [andThen, slotsPhase, catchupPhase, connectBackPhase, initPrefix,
            syncBlock]
    | subscriber =>
      refine ⟨initPrefix ⟨no, ⟨tid, tname, tdsn, NodeRole.subscriber,
          NodeStatus.init⟩, rs⟩ env lsn snap,
        [Event.makeOtherSlots, Event.setStatus tid NodeStatus.catchup,
         Event.setStatus tid NodeStatus.connect_back,
         Event.setStatus tid NodeStatus.ready,
         Event.setRemoteStatus tname NodeStatus.ready], ?_⟩
      simp [andThen, slotsPhase, catchupPhase, connectBackPhase, initPrefix,
            syncBlock]

/-- Witness for C3 at a concrete context and environment. -/
theorem C3_sync_schema_step_order_witness :
    exConn.target.status = NodeStatus.init ∧
    exEnv.slotReply = some (42, "snap-1") ∧
    (pglogical_init_replica exConn exEnv).2 = none ∧
    ∃ p s, (pglogical_init_replica exConn exEnv).1 =
      p ++ [Event.runDumpCommand "snap-1", Event.runRestoreCommand "pre-data",
            Event.copyData "snap-1", Event.runRestoreCommand "post-data",
            Event.setStatus exConn.target.id NodeStatus.slots] ++ s :=
  ⟨rfl, rfl, rfl,
   C3_sync_schema_step_order exConn exEnv 42 "snap-1" rfl rfl rfl⟩

/-- C8: in every run of `pglogical_init_replica`, the sequence formed by the
entry status followed by every status persisted through `set_node_status` is
strictly increasing in the phase order
`INIT → SYNC_SCHEMA → SLOTS → CATCHUP → CONNECT_BACK → READY` — the node's
persisted status is monotonically increasing across the bootstrap attempt,
whether the run completes or aborts. -/
theorem C8_status_monotone (conn : PGLogicalConnection) (env : Env) :
    List.Chain' (fun a b => statusRank a < statusRank b)
      (conn.target.status ::
        persistedStatuses (pglogical_init_replica conn env).1) := by
  obtain ⟨no, nt, rs⟩ := conn
  obtain ⟨tid, tname, tdsn, trole, tst⟩ := nt
  cases tst with
  | init =>
    rcases hsr : env.slotReply with _ | ⟨lsn, snap⟩
    · unfold pglogical_init_replica
      dsimp only
      simp [initSyncPhase, hsr, andThen, persistedStatuses, statusOf]
    · rcases initSync_cases ⟨no, ⟨tid, tname, tdsn, trole, NodeStatus.init⟩, rs⟩
          env lsn snap hsr with ⟨e, evs, hI, hp, ha⟩ | hI
      · unfold pglogical_init_replica
        dsimp only
        rw [hI]
        simp only [andThen_fail]
        rw [persistedStatuses_append, hp]
        simp [initPrefix, persistedStatuses, statusOf, statusRank]
      · unfold pglogical_init_replica
        dsimp only
        rw [hI]
        cases trole <;>
          simp [andThen, slotsPhase, catchupPhase, connectBackPhase,
                initPrefix, syncBlock, persistedStatuses, statusOf, statusRank]
  | sync_schema =>
    unfold pglogical_init_replica
    simp [persistedStatuses]
  | slots =>
    unfold pglogical_init_replica
    dsimp only
    cases trole <;>
      simp [initSyncPhase, slotsPhase, catchupPhase, connectBackPhase, andThen,
            persistedStatuses, statusOf, statusRank]
  | catchup =>
    unfold pglogical_init_replica
    dsimp only
    cases trole <;>
      simp [initSyncPhase, slotsPhase, catchupPhase, connectBackPhase, andThen,
            persistedStatuses, statusOf, statusRank]
  | connect_back =>
    unfold pglogical_init_replica
    dsimp only
    cases trole <;>
      simp [initSyncPhase, slotsPhase, catchupPhase, connectBackPhase, andThen,
            persistedStatuses, statusOf, statusRank]
  | ready =>
    unfold pglogical_init_replica
    simp [persistedStatuses]
